import Mathlib

/-!
Verification of the natural-language specification of the PICA2 /
phenotrex repository against a shallow embedding of its source code.

The embedding covers:
* `phenotrex/ml/shap_handler.py` — the `ShapHandler` accumulator for
  feature arrays and SHAP (Shapley) values (binary / 2-D case, the
  repository's primary path where `_class_names = ['binary']`);
* the completeness/contamination cross-validation entry point
  `PICASVM.crossvalidate_cc` of `pica/ml/classifiers/svm.py`, whose
  `CompleContaCV` workhorse lives in `pica/ml/cccv.py` (not part of the
  sources at hand) and is therefore modelled from the spec.

Numpy float64 values are modelled as rationals (`ℚ`); numpy 2-D arrays
as lists of rows (`List (List ℚ)`).  Fallible methods return
`Except String _`, with the error strings of the source.
-/

namespace PICA2

/-- A numpy 2-D float array, as a list of rows. -/
abbrev Matrix := List (List ℚ)

/-- Absolute value on ℚ, written out so that it unfolds by `simp`. -/
def absQ (q : ℚ) : ℚ := if q < 0 then -q else q

/-- `np.average` of a 1-D array: sum divided by length.  (In ℚ, the
empty case yields `0/0 = 0`; numpy would produce NaN there.  No claim
evaluates an empty average through this function.) -/
def meanQ (l : List ℚ) : ℚ := l.sum / l.length

/-- `np.average` of a 1-D array, with the empty case made explicit:
numpy returns NaN for an empty input, modelled as `none`. -/
def meanOpt (l : List ℚ) : Option ℚ :=
  if l.isEmpty then none else some (meanQ l)

/-- Round to the nearest integer, halves to the nearest even integer —
the rounding rule of `np.round` / IEEE-754. -/
def roundHalfEven (q : ℚ) : ℤ :=
  let f := q.floor
  let frac := q - (f : ℚ)
  if frac < 1/2 then f
  else if 1/2 < frac then f + 1
  else if f % 2 = 0 then f else f + 1

/-- `np.ndarray.round(5)`: round to 5 decimal places, halves to even. -/
def round5 (q : ℚ) : ℚ := (roundHalfEven (q * 100000) : ℚ) / 100000

/-- `np.allclose(a, b)` on scalars with the default tolerances
`rtol = 1e-5`, `atol = 1e-8`: `|a - b| ≤ atol + rtol * |b|`. -/
def allclose (a b : ℚ) : Prop :=
  absQ (a - b) ≤ 1/100000000 + (1/100000) * absQ b

instance (a b : ℚ) : Decidable (allclose a b) := by
  unfold allclose; infer_instance

/-- Fancy indexing `row[idxs]` of a 1-D array by an index array.
(Numpy raises on an out-of-range index; claims only use in-range
indices, modelled by the default `0`.) -/
def selectCols (idxs : List Nat) (row : List ℚ) : List ℚ :=
  idxs.map (fun k => row.getD k 0)

/-- Column `j` of a 2-D array, `M[:, j]`. -/
def colQ (M : Matrix) (j : Nat) : List ℚ :=
  M.map (fun r => r.getD j 0)

/-- The column count `M.shape[1]` of a rectangular numpy array, read off
the first row of the list-of-rows model. -/
def ncols (M : Matrix) : Nat := (M.headD []).length

/-- `Except.isOk`: whether a fallible call succeeded. -/
def exceptOk {ε α : Type} : Except ε α → Bool
  | .ok _ => true
  | .error _ => false

/-- Extract the success value of an `Except`, with a default. -/
def getOkD {ε α : Type} : Except ε α → α → α
  | .ok a, _ => a
  | .error _, d => d

/-- The state of `phenotrex.ml.shap_handler.ShapHandler`: the fields set
in `__init__` (lines 27–35).  The four accumulator fields start as
`None`/`none`. -/
structure ShapHandler where
  used_idxs : List Nat
  used_feature_names : List String
  sample_names : Option (List String) := none
  used_features : Option Matrix := none
  used_shaps : Option Matrix := none
  shap_base_value : Option ℚ := none
deriving Repr, DecidableEq

/-- `ShapHandler.from_clf` (lines 19–25): the used feature indices are
the positions whose feature name carries a non-zero weight in
`clf.get_feature_weights()` (the weights dict has one entry per distinct
feature name), and `__init__` stores `feature_names[used_idxs]`. -/
def from_clf (feature_names : List String) (weights : String → ℚ) : ShapHandler :=
  let used_idxs :=
    (List.range feature_names.length).filter
      (fun i => weights (feature_names.getD i "") ≠ 0)
  { used_idxs := used_idxs
    used_feature_names := used_idxs.map (fun i => feature_names.getD i "") }

/-- Line 50–51 of `add_feature_data`: if no explicit base value is
passed, the base-value column is split off the shap array
(`shaps[..., :-1]`). -/
def effectiveShaps (shaps : Matrix) (base_value : Option ℚ) : Matrix :=
  match base_value with
  | none => shaps.map List.dropLast
  | some _ => shaps

/-- Line 50–51 of `add_feature_data`: the base value in effect — the
one passed, or `np.average(shaps[..., -1])`. -/
def effectiveBase (shaps : Matrix) (base_value : Option ℚ) : ℚ :=
  match base_value with
  | none => meanQ (shaps.map (fun r => r.getLastD 0))
  | some b => b

/-- Lines 53–57 of `add_feature_data`: the first call stores the base
value unconditionally; later calls must satisfy the `np.allclose`
assertion against the stored value. -/
def baseValueOk (h : ShapHandler) (bv : ℚ) : Bool :=
  match h.shap_base_value with
  | none => true
  | some b0 => decide (allclose b0 bv)

/-- `ShapHandler.add_feature_data` (lines 37–80).  The stored base
value must agree with the effective new one up to `np.allclose`
(assertion at lines 56–57), else the call fails.  Both the feature and
the shap arrays are sliced down to `used_idxs` columns
(`np.nan_to_num` is the identity on ℚ, which has no NaN) and the
batch is concatenated onto the stored arrays. -/
def add_feature_data (h : ShapHandler) (sample_names : List String)
    (features : Matrix) (shaps : Matrix) (base_value : Option ℚ) :
    Except String ShapHandler :=
  if baseValueOk h (effectiveBase shaps base_value) then
    .ok { h with
          shap_base_value :=
            some (h.shap_base_value.getD (effectiveBase shaps base_value))
          sample_names := some (h.sample_names.getD [] ++ sample_names)
          used_features := some (h.used_features.getD [] ++
            features.map (selectCols h.used_idxs))
          used_shaps := some (h.used_shaps.getD [] ++
            (effectiveShaps shaps base_value).map (selectCols h.used_idxs)) }
  else
    .error "Incongruent base values found."

/-- `ShapHandler._get_sample_index_with_name` (lines 82–87): the first
index of the stored sample names equal to `sample_name`; any lookup
failure (including no stored names at all) raises
`ValueError('Sample label not found among saved explanations.')`. -/
def _get_sample_index_with_name (h : ShapHandler) (sample_name : String) :
    Except String Nat :=
  match (h.sample_names.getD []).findIdx? (fun s => s = sample_name) with
  | some i => .ok i
  | none => .error "Sample label not found among saved explanations."

/-- `ShapHandler._get_feature_data` (lines 89–103): returns the stored
features, shaps and sample names; if either stored array is still
`None`, the `astype` call raises and the method fails with
`RuntimeError('No explanations saved.')`. -/
def _get_feature_data (h : ShapHandler) :
    Except String (Matrix × Matrix × List String) :=
  match h.used_features, h.used_shaps with
  | some X, some S => .ok (X, S, h.sample_names.getD [])
  | _, _ => .error "No explanations saved."

/-- The global sort key of `_get_sorted_by_shap_data` with
`sort_by_idx=None`: `np.sum(np.abs(shap_agg), axis=0)` at feature
column `j`. -/
def shapSortKey (S : Matrix) (j : Nat) : ℚ :=
  (S.map (fun r => absQ (r.getD j 0))).sum

/-- The per-sample sort key of `_get_sorted_by_shap_data` with
`sort_by_idx=i`: `np.abs(shap_agg[i, :])` at feature column `j`. -/
def sampleSortKey (S : Matrix) (i : Nat) (j : Nat) : ℚ :=
  absQ ((S.getD i []).getD j 0)

/-- The strict-ascending comparison realised by a stable ascending
`np.argsort` on the key array: smaller key first, ties kept in index
order. -/
def rankLE (key : Nat → ℚ) (i j : Nat) : Prop :=
  key i < key j ∨ (key i = key j ∧ i ≤ j)

instance (key : Nat → ℚ) : DecidableRel (rankLE key) := fun _ _ => by
  unfold rankLE; infer_instance

/-- `np.argsort(keys)[::-1]` over `n` columns: a stable ascending
argsort of the key array (numpy's introsort falls back to a stable
insertion sort on the small arrays at issue), then reversed. -/
def argsortDescBy (key : Nat → ℚ) (n : Nat) : List Nat :=
  (List.insertionSort (rankLE key) (List.range n)).reverse

/-- `ShapHandler._get_sorted_by_shap_data` (lines 105–133), 2-D branch:
column-permutes the stored feature array, shap array and used feature
names by the descending argsort of the chosen key (global summed
absolute shap magnitude, or one sample's absolute shap values). -/
def _get_sorted_by_shap_data (h : ShapHandler) (sort_by_idx : Option Nat) :
    Except String (Matrix × Matrix × List String) :=
  match _get_feature_data h with
  | .error e => .error e
  | .ok (X, S, _) =>
    let key : Nat → ℚ :=
      match sort_by_idx with
      | none => shapSortKey S
      | some i => sampleSortKey S i
    let inds := argsortDescBy key (ncols S)
    .ok (X.map (selectCols inds), S.map (selectCols inds),
         inds.map (fun k => h.used_feature_names.getD k ""))

/-- One row of the `get_shap_summary` dataframe.  The two means are
`Option ℚ` because `np.average` of an empty selection is NaN. -/
structure SummaryRow where
  feature : String
  mean_shap_present : Option ℚ
  mean_shap_absent : Option ℚ
  n_present : Nat
  n_absent : Nat
deriving Repr, DecidableEq

/-- `shaps[np.where(feature > 0)[0]]` for feature column `j`: the shap
entries at the sample positions where the feature value is positive. -/
def presentShaps (X S : Matrix) (j : Nat) : List ℚ :=
  (((colQ X j).zip (colQ S j)).filter (fun p => 0 < p.1)).map (fun p => p.2)

/-- `shaps[np.where(feature == 0)[0]]` for feature column `j`. -/
def absentShaps (X S : Matrix) (j : Nat) : List ℚ :=
  (((colQ X j).zip (colQ S j)).filter (fun p => p.1 = 0)).map (fun p => p.2)

/-- The summary line built for rank `i` in the loop of
`get_shap_summary` (lines 236–247), over the column-sorted arrays. -/
def summaryRow (Xs Ss : Matrix) (fns : List String) (i : Nat) : SummaryRow :=
  { feature := fns.getD i ""
    mean_shap_present := (meanOpt (presentShaps Xs Ss i)).map round5
    mean_shap_absent := (meanOpt (absentShaps Xs Ss i)).map round5
    n_present := (presentShaps Xs Ss i).length
    n_absent := (absentShaps Xs Ss i).length }

/-- The row-building loop of `get_shap_summary` (lines 232–248) over
the already-sorted data.  `none` for `n_max_features` is Python's
`None`, replaced by the number of (sorted) feature names; asking for
more rows than there are features would hit an IndexError in the
loop. -/
def summaryFromSorted (Xs Ss : Matrix) (fns : List String)
    (n_max_features : Option Nat) : Except String (List SummaryRow) :=
  if n_max_features.getD fns.length ≤ fns.length then
    .ok ((List.range (n_max_features.getD fns.length)).map (summaryRow Xs Ss fns))
  else
    .error "index out of range"

/-- `ShapHandler.get_shap_summary` (lines 224–249). -/
def get_shap_summary (h : ShapHandler) (n_max_features : Option Nat) :
    Except String (List SummaryRow) :=
  match _get_sorted_by_shap_data h none with
  | .error e => .error e
  | .ok (Xs, Ss, fns) => summaryFromSorted Xs Ss fns n_max_features

/-- One row of the `get_shap_force` dataframe (binary case: a single
SHAP value column). -/
structure ForceRow where
  sample : String
  feature : String
  feature_value : ℚ
  shap_value : ℚ
deriving Repr, DecidableEq

/-- `ShapHandler.get_shap_force` (lines 192–222): looks the sample up
by name first (line 204), then sorts by that sample's own absolute
shap values, takes the top `n_max_features` (a Python `[:n]` slice;
`None` slices the whole array), and rounds the shap values to 5 decimal
places. -/
def get_shap_force (h : ShapHandler) (sample_name : String)
    (n_max_features : Option Nat) : Except String (List ForceRow) :=
  match _get_sample_index_with_name h sample_name with
  | .error e => .error e
  | .ok i =>
    match _get_sorted_by_shap_data h (some i) with
    | .error e => .error e
    | .ok (Xs, Ss, fns) =>
      let n := n_max_features.getD fns.length
      let fns' := fns.take n
      let fvals := (Xs.getD i []).take n
      let svals := ((Ss.getD i []).take n).map round5
      .ok ((fns'.zip (fvals.zip svals)).map
        (fun p => { sample := sample_name, feature := p.1,
                    feature_value := p.2.1, shap_value := p.2.2 }))

/-- `ShapHandler.plot_shap_force` (lines 135–148): fetches the stored
data first (line 143), then looks up the sample index; the actual
`shap.force_plot` call is external plotting, out of scope. -/
def plot_shap_force (h : ShapHandler) (sample_name : String) :
    Except String Unit :=
  match _get_feature_data h with
  | .error e => .error e
  | .ok _ =>
    match _get_sample_index_with_name h sample_name with
    | .error e => .error e
    | .ok _ => .ok ()

/-- `ShapHandler.plot_shap_summary` (lines 150–190): fetches the stored
data (line 162); the `shap.summary_plot` call is external plotting, out
of scope. -/
def plot_shap_summary (h : ShapHandler) : Except String Unit :=
  match _get_feature_data h with
  | .error e => .error e
  | .ok _ => .ok ()

/-- State-passing form of `get_shap_summary`: the method body
(lines 224–249) only reads `self` attributes and assigns none, so the
outgoing handler state is the incoming one. -/
def get_shap_summary_st (h : ShapHandler) (n_max_features : Option Nat) :
    Except String (List SummaryRow) × ShapHandler :=
  (get_shap_summary h n_max_features, h)

/-- State-passing form of `get_shap_force`: the method body
(lines 192–222) only reads `self` attributes and assigns none, so the
outgoing handler state is the incoming one. -/
def get_shap_force_st (h : ShapHandler) (sample_name : String)
    (n_max_features : Option Nat) :
    Except String (List ForceRow) × ShapHandler :=
  (get_shap_force h sample_name n_max_features, h)

/-- One batch of arguments to `add_feature_data`. -/
structure Batch where
  sample_names : List String
  features : Matrix
  shaps : Matrix
  base_value : Option ℚ

/-- A batch is well-formed when its arrays are sample-parallel, as the
docstring of `add_feature_data` requires: one feature row and one shap
row per sample name. -/
def Batch.wf (b : Batch) : Prop :=
  b.features.length = b.sample_names.length ∧
  b.shaps.length = b.sample_names.length

/-- `add_feature_data` applied to a `Batch`. -/
def add_batch (h : ShapHandler) (b : Batch) : Except String ShapHandler :=
  add_feature_data h b.sample_names b.features b.shaps b.base_value

/-- A sequence of `add_feature_data` calls, stopping at the first
failure. -/
def addMany (h : ShapHandler) (bs : List Batch) : Except String ShapHandler :=
  match bs with
  | [] => .ok h
  | b :: rest =>
    match add_batch h b with
    | .error e => .error e
    | .ok h' => addMany h' rest

/-- Number of stored sample names (0 while the field is `None`). -/
def namesCount (h : ShapHandler) : Nat := (h.sample_names.getD []).length

/-- Number of stored feature rows (0 while the field is `None`). -/
def featRows (h : ShapHandler) : Nat := (h.used_features.getD []).length

/-- Number of stored shap rows (0 while the field is `None`). -/
def shapRows (h : ShapHandler) : Nat := (h.used_shaps.getD []).length

namespace CCCV

/-- Modelled from the spec: the completeness/contamination degradation
of `CompleContaCV` (`pica/ml/cccv.py`, not among the sources; only its
caller `PICASVM.crossvalidate_cc` is).  Per spec §4.1, each record's
feature set is degraded by dropping a completeness-fraction of its
present features and adding a contamination-fraction of absent features
as false positives.  The number of features to drop at completeness
level `comple` out of `nPresent` present ones. -/
def n_drop (comple : ℚ) (nPresent : Nat) : Nat :=
  ((1 - comple) * nPresent).floor.toNat

/-- Modelled from the spec: the number of absent features added as
false positives at contamination level `conta` out of `nAbsent` absent
ones (spec §4.1). -/
def n_add (conta : ℚ) (nAbsent : Nat) : Nat :=
  (conta * (nAbsent : ℚ)).floor.toNat

/-- Modelled from the spec: degrading one record's present-feature set
by a randomly chosen drop set and false-positive set (spec §4.1).  The
random choices are passed in explicitly. -/
def degrade_record (present : List Nat) (dropSet addSet : List Nat) :
    List Nat :=
  present.filter (fun f => f ∉ dropSet) ++ addSet

/-- Modelled from the spec: one replicate of CCCV at a fixed grid cell
degrades every record with that replicate's random choices and runs
stratified cross-validation on the degraded records; `score` is the
mean balanced accuracy the external cross-validation returns on a
dataset (spec §4.1: "run stratified k-fold cross-validation with the
given classifier, and average balanced accuracy over folds"). -/
def replicate_score (score : List (List Nat) → ℚ)
    (records : List (List Nat)) (choices : List (List Nat × List Nat)) : ℚ :=
  score ((records.zip choices).map
    (fun rc => degrade_record rc.1 rc.2.1 rc.2.2))

/-- Modelled from the spec: the CCCV grid cell value is the mean over
replicates of the replicate scores (spec §2: "aggregates
balanced-accuracy scores into a 2-D grid"; §4.1: "average balanced
accuracy over folds and replicates"), one choice list per replicate. -/
def cccv_cell (score : List (List Nat) → ℚ) (records : List (List Nat))
    (choiceSeq : List (List (List Nat × List Nat))) : ℚ :=
  meanQ (choiceSeq.map (replicate_score score records))

end CCCV

/-! ### Concrete states used by witnesses and counterexamples -/

/-- A handler over a single used feature, before any data is added. -/
def baseHandler : ShapHandler := { used_idxs := [0], used_feature_names := ["f0"] }

/-- `baseHandler` after one batch with base value `0.50001`. -/
def handlerB1 : ShapHandler :=
  getOkD (add_feature_data baseHandler ["a"] [[1]] [[2]] (some (50001/100000))) baseHandler

/-- `baseHandler` after one batch with base value `0.5`. -/
def handlerB2 : ShapHandler :=
  getOkD (add_feature_data baseHandler ["a"] [[1]] [[2]] (some (1/2))) baseHandler

/-- A handler over two used features holding one sample whose two shap
values have equal absolute magnitude — a sort tie. -/
def tieHandler : ShapHandler :=
  getOkD (add_feature_data
    { used_idxs := [0, 1], used_feature_names := ["f0", "f1"] }
    ["a"] [[1, 0]] [[1, 1]] (some 0))
    { used_idxs := [0, 1], used_feature_names := ["f0", "f1"] }

/-- A handler over one used feature holding three samples, all with the
feature present, whose shap values average to `1/3`. -/
def thirdHandler : ShapHandler :=
  getOkD (add_feature_data baseHandler ["a", "b", "c"]
    [[1], [1], [1]] [[1], [0], [0]] (some 0)) baseHandler

/-- A fitted-model handler with no feature data added yet. -/
def freshHandler : ShapHandler := from_clf ["f0"] (fun _ => 1)

/-- The first row of the `get_shap_summary` table, if any. -/
def summaryHead (h : ShapHandler) : Option SummaryRow :=
  match get_shap_summary h none with
  | .ok (r :: _) => some r
  | _ => none

/-! ### Helper lemmas -/

/-- `Rat.floor` agrees with the `FloorRing` floor on ℚ. -/
theorem ratFloor_eq_intFloor (q : ℚ) : q.floor = ⌊q⌋ := rfl

/-- `findIdx?` misses on a list not containing the sought name. -/
theorem findIdx?_none_of_not_mem (l : List String) (name : String)
    (h : name ∉ l) : l.findIdx? (fun s => s = name) = none := by
  rw [List.findIdx?_eq_none_iff]
  intro x hx
  simp only [decide_eq_false_iff_not]
  exact fun e => h (e ▸ hx)

/-- `getD` through `map`, inside the mapped range. -/
theorem getD_map_lt {α β : Type} (f : α → β) (l : List α) (i : Nat)
    (hi : i < l.length) (dβ : β) (dα : α) :
    (l.map f).getD i dβ = f (l.getD i dα) := by
  rw [List.getD_eq_getElem?_getD, List.getD_eq_getElem?_getD,
    List.getElem?_map, List.getElem?_eq_getElem hi]
  rfl

/-! ### C1 — base value agreement across batches -/

/-- C1, counterexample: the claim's example "adding two batches with
base values 0.50001 and 0.5 succeeds" is false on the code: after a
batch with base value 0.50001 is stored, a batch with base value 0.5
fails the `np.allclose` assertion (|0.50001 − 0.5| = 1e-5 exceeds
1e-8 + 1e-5·0.5). -/
theorem base_value_example_counterexample :
    handlerB1.shap_base_value = some (50001/100000) ∧
    exceptOk (add_feature_data handlerB1 ["b"] [[1]] [[2]] (some (1/2))) = false := by
  constructor
  · norm_num [handlerB1, baseHandler, add_feature_data, baseValueOk, effectiveBase, effectiveShaps, getOkD]
  · norm_num [handlerB1, baseHandler, add_feature_data, baseValueOk, effectiveBase, effectiveShaps, getOkD, allclose,
      absQ, exceptOk]

/-- C1, amended: a subsequent `add_feature_data` call with base value
`b'` against a stored base value `b` succeeds iff
`np.allclose(b, b')` holds, i.e. `|b − b'| ≤ 1e-8 + 1e-5·|b'|`
(numpy's default tolerances, not an absolute 1e-6 tolerance); in
particular both example pairs — stored 0.50001 then 0.5, and stored
0.5 then 0.6 — fail. -/
theorem base_value_check_is_allclose :
    (∀ (h : ShapHandler) (b b' : ℚ) (names : List String) (X S : Matrix),
      h.shap_base_value = some b →
      (exceptOk (add_feature_data h names X S (some b')) = true ↔ allclose b b')) ∧
    exceptOk (add_feature_data handlerB1 ["b"] [[1]] [[2]] (some (1/2))) = false ∧
    exceptOk (add_feature_data handlerB2 ["b"] [[1]] [[2]] (some (6/10))) = false := by
  refine ⟨?_, ?_, ?_⟩
  · intro h b b' names X S hb
    by_cases hc : allclose b b'
    · simp [add_feature_data, baseValueOk, effectiveBase, hb, hc, exceptOk]
    · simp [add_feature_data, baseValueOk, effectiveBase, hb, hc, exceptOk]
  · norm_num [handlerB1, baseHandler, add_feature_data, baseValueOk, effectiveBase, effectiveShaps, getOkD, allclose,
      absQ, exceptOk]
  · norm_num [handlerB2, baseHandler, add_feature_data, baseValueOk, effectiveBase, effectiveShaps, getOkD, allclose,
      absQ, exceptOk]

/-- C1, witness: at the stored base value 0.5 of `handlerB2` and the
new base value 0.5 + 1e-9, the call succeeds, and the `allclose`
criterion indeed holds there. -/
theorem base_value_check_is_allclose_witness :
    exceptOk (add_feature_data handlerB2 ["b"] [[1]] [[2]]
      (some (1/2 + 1/1000000000))) = true := by
  have hb : handlerB2.shap_base_value = some (1/2) := by
    norm_num [handlerB2, baseHandler, add_feature_data, baseValueOk, effectiveBase, effectiveShaps, getOkD]
  exact (base_value_check_is_allclose.1 handlerB2 (1/2) (1/2 + 1/1000000000)
    ["b"] [[1]] [[2]] hb).2 (by norm_num [allclose, absQ])

/-! ### C6 — unknown sample name in get_shap_force -/

/-- C6: `get_shap_force` with a sample name not among the stored sample
names fails with the named not-found error and returns no result. -/
theorem force_unknown_sample_not_found :
    ∀ (h : ShapHandler) (name : String) (nopt : Option Nat),
      name ∉ h.sample_names.getD [] →
      get_shap_force h name nopt =
        .error "Sample label not found among saved explanations." := by
  intro h name nopt hmem
  unfold get_shap_force _get_sample_index_with_name
  rw [findIdx?_none_of_not_mem _ _ hmem]

/-- C6, witness: looking up the absent name "zzz" on a handler storing
the single sample name "a". -/
theorem force_unknown_sample_not_found_witness :
    "zzz" ∉ handlerB1.sample_names.getD [] ∧
    get_shap_force handlerB1 "zzz" none =
      .error "Sample label not found among saved explanations." := by
  have hm : "zzz" ∉ handlerB1.sample_names.getD [] := by
    have hn : handlerB1.sample_names.getD [] = ["a"] := by
      norm_num [handlerB1, baseHandler, add_feature_data, baseValueOk, effectiveBase, effectiveShaps, getOkD]
    rw [hn]
    decide
  exact ⟨hm, force_unknown_sample_not_found handlerB1 "zzz" none hm⟩

/-! ### C8 — queries are read-only -/

/-- C8: `get_shap_summary` and `get_shap_force` leave every field of
the accumulator state unchanged: the state threaded through the
state-passing forms comes back equal to the input state. -/
theorem queries_leave_state_unchanged :
    ∀ (h : ShapHandler) (nopt : Option Nat) (name : String),
      (get_shap_summary_st h nopt).2 = h ∧
      (get_shap_force_st h name nopt).2 = h :=
  fun _ _ _ => ⟨rfl, rfl⟩

/-! ### C10 — querying before any data is added -/

/-- C10, counterexample: on a handler with no explanations saved,
`get_shap_force` does fail — but with the sample-not-found error (the
name lookup at line 204 runs before the stored data is touched), not
with the claimed 'No explanations saved.' error. -/
theorem empty_force_error_counterexample :
    get_shap_force freshHandler "x" none =
      .error "Sample label not found among saved explanations." ∧
    "Sample label not found among saved explanations." ≠
      "No explanations saved." := by
  constructor
  · rfl
  · decide

/-- C10, amended: on a handler with no `add_feature_data` call yet,
`get_shap_summary`, `plot_shap_summary` and `plot_shap_force` fail with
'No explanations saved.', while `get_shap_force` fails with
'Sample label not found among saved explanations.' (its sample-name
lookup runs first); none of the four returns a result. -/
theorem empty_handler_query_errors :
    ∀ (h : ShapHandler) (name : String) (nopt : Option Nat),
      h.used_features = none → h.sample_names = none →
      get_shap_summary h nopt = .error "No explanations saved." ∧
      plot_shap_summary h = .error "No explanations saved." ∧
      plot_shap_force h name = .error "No explanations saved." ∧
      get_shap_force h name nopt =
        .error "Sample label not found among saved explanations." := by
  intro h name nopt hf hs
  have hdata : _get_feature_data h = .error "No explanations saved." := by
    unfold _get_feature_data
    rw [hf]
  refine ⟨?_, ?_, ?_, ?_⟩
  · unfold get_shap_summary _get_sorted_by_shap_data
    rw [hdata]
  · unfold plot_shap_summary
    rw [hdata]
  · unfold plot_shap_force
    rw [hdata]
  · unfold get_shap_force _get_sample_index_with_name
    rw [hs]
    rfl

/-- C10, witness: the four queries on the concrete fresh handler. -/
theorem empty_handler_query_errors_witness :
    get_shap_summary freshHandler none = .error "No explanations saved." ∧
    plot_shap_summary freshHandler = .error "No explanations saved." ∧
    plot_shap_force freshHandler "x" = .error "No explanations saved." ∧
    get_shap_force freshHandler "x" none =
      .error "Sample label not found among saved explanations." :=
  empty_handler_query_errors freshHandler "x" none rfl rfl

/-! ### C2 — feature sort order -/

instance (key : Nat → ℚ) : IsTotal Nat (rankLE key) := ⟨by
  intro i j
  rcases lt_trichotomy (key i) (key j) with h | h | h
  · exact .inl (.inl h)
  · rcases le_total i j with hij | hij
    · exact .inl (.inr ⟨h, hij⟩)
    · exact .inr (.inr ⟨h.symm, hij⟩)
  · exact .inr (.inl h)⟩

instance (key : Nat → ℚ) : IsTrans Nat (rankLE key) := ⟨by
  intro a b c hab hbc
  rcases hab with h1 | ⟨e1, le1⟩
  · rcases hbc with h2 | ⟨e2, _⟩
    · exact .inl (h1.trans h2)
    · exact .inl (h1.trans_eq e2)
  · rcases hbc with h2 | ⟨e2, le2⟩
    · exact .inl (e1.trans_lt h2)
    · exact .inr ⟨e1.trans e2, le1.trans le2⟩⟩

/-- The descending argsort is a permutation of the column indices. -/
theorem argsortDescBy_perm (key : Nat → ℚ) (n : Nat) :
    List.Perm (argsortDescBy key n) (List.range n) :=
  (List.reverse_perm _).trans (List.perm_insertionSort _ _)

/-- The descending argsort ranks strictly greater keys first and breaks
ties towards the larger original index (the ascending stable argsort
keeps ties in index order, and the subsequent reversal flips them). -/
theorem argsortDescBy_sorted (key : Nat → ℚ) (n : Nat) :
    (argsortDescBy key n).Pairwise
      (fun a b => key b < key a ∨ (key a = key b ∧ b < a)) := by
  have hs : (List.insertionSort (rankLE key) (List.range n)).Pairwise (rankLE key) :=
    List.sorted_insertionSort _ _
  have hnd : (List.insertionSort (rankLE key) (List.range n)).Nodup :=
    (List.perm_insertionSort _ _).nodup_iff.2 (List.nodup_range n)
  have hrev : (argsortDescBy key n).Pairwise (fun a b => rankLE key b a) :=
    List.pairwise_reverse.2 hs
  have hrevnd : (argsortDescBy key n).Pairwise (fun a b => a ≠ b) := by
    unfold argsortDescBy
    exact List.nodup_reverse.2 hnd
  refine (hrev.and hrevnd).imp ?_
  rintro a b ⟨hr, hne⟩
  rcases hr with h | ⟨he, hle⟩
  · exact .inl h
  · exact .inr ⟨he.symm, lt_of_le_of_ne hle (fun e => hne e.symm)⟩

/-- C2, counterexample: with a single stored sample whose two features
both have summed absolute Shapley magnitude 1 (a tie), the first
summary row is feature "f1" — the tie is broken towards the LATER
original feature, not the earlier one as claimed. -/
theorem shap_sort_tie_counterexample :
    shapSortKey [[1, 1]] 0 = shapSortKey [[1, 1]] 1 ∧
    (summaryHead tieHandler).map (fun r => r.feature) = some "f1" ∧
    "f1" ≠ "f0" := by
  refine ⟨by norm_num [shapSortKey, absQ], ?_, by decide⟩
  norm_num [tieHandler, add_feature_data, baseValueOk, effectiveBase, effectiveShaps, getOkD, summaryHead, get_shap_summary, summaryFromSorted,
    _get_sorted_by_shap_data, _get_feature_data, argsortDescBy, rankLE,
    List.insertionSort, List.orderedInsert, shapSortKey, absQ, ncols,
    selectCols, summaryRow, List.range_succ]

/-- C2, amended: the feature ordering used by `get_shap_summary`
(global key: summed absolute Shapley magnitude) and by `get_shap_force`
(per-sample key: that sample's absolute Shapley values) ranks each
feature exactly once, in non-increasing key order, with ties of equal
key broken by original feature order reversed — the LATER feature ranks
first. -/
theorem shap_sort_descending_ties_later_first :
    ∀ (S : Matrix) (n : Nat) (i : Nat),
      (List.Perm (argsortDescBy (shapSortKey S) n) (List.range n) ∧
        (argsortDescBy (shapSortKey S) n).Pairwise
          (fun a b => shapSortKey S b < shapSortKey S a ∨
            (shapSortKey S a = shapSortKey S b ∧ b < a))) ∧
      (List.Perm (argsortDescBy (sampleSortKey S i) n) (List.range n) ∧
        (argsortDescBy (sampleSortKey S i) n).Pairwise
          (fun a b => sampleSortKey S i b < sampleSortKey S i a ∨
            (sampleSortKey S i a = sampleSortKey S i b ∧ b < a))) :=
  fun _ _ _ =>
    ⟨⟨argsortDescBy_perm _ _, argsortDescBy_sorted _ _⟩,
     ⟨argsortDescBy_perm _ _, argsortDescBy_sorted _ _⟩⟩

/-! ### C3 — CCCV at completeness 1.0, contamination 0.0 -/

/-- C3: at completeness 1.0 and contamination 0.0 with one replicate,
every record's degradation is forced to drop no present feature and add
no absent one (the prescribed drop/add set sizes are 0), so the CCCV
grid cell equals the plain cross-validation score on the very same
records — equal exactly, hence within any tolerance. -/
theorem cccv_identity_at_full_completeness :
    ∀ (score : List (List Nat) → ℚ) (records : List (List Nat))
      (ch : List (List Nat × List Nat)) (nAbsent : List Nat → Nat),
      ch.length = records.length →
      (∀ rc ∈ records.zip ch,
        rc.2.1.length = CCCV.n_drop 1 rc.1.length ∧
        rc.2.2.length = CCCV.n_add 0 (nAbsent rc.1)) →
      CCCV.cccv_cell score records [ch] = score records := by
  intro score records ch nAbsent hlen hc
  have hdeg : ∀ rc ∈ records.zip ch,
      CCCV.degrade_record rc.1 rc.2.1 rc.2.2 = rc.1 := by
    intro rc hrc
    obtain ⟨h1, h2⟩ := hc rc hrc
    have hd : rc.2.1 = [] := List.eq_nil_of_length_eq_zero
      (by rw [h1]; simp [CCCV.n_drop, ratFloor_eq_intFloor])
    have ha : rc.2.2 = [] := List.eq_nil_of_length_eq_zero
      (by rw [h2]; simp [CCCV.n_add, ratFloor_eq_intFloor])
    simp [CCCV.degrade_record, hd, ha]
  unfold CCCV.cccv_cell CCCV.replicate_score
  have hmap : (records.zip ch).map
      (fun rc => CCCV.degrade_record rc.1 rc.2.1 rc.2.2) = records := by
    rw [List.map_congr_left hdeg]
    exact List.map_fst_zip records ch (le_of_eq hlen.symm)
  simp only [List.map_cons, List.map_nil]
  rw [hmap]
  simp [meanQ]

/-- C3, witness: two records, one replicate with empty drop/add
choices, and record count as the stand-in cross-validation score. -/
theorem cccv_identity_witness :
    CCCV.cccv_cell (fun rs => (rs.length : ℚ)) [[0], [1, 2]]
      [[([], []), ([], [])]] = (fun rs => (rs.length : ℚ)) [[0], [1, 2]] :=
  cccv_identity_at_full_completeness (fun rs => (rs.length : ℚ))
    [[0], [1, 2]] [([], []), ([], [])] (fun _ => 5) rfl
    (by
      intro rc hrc
      fin_cases hrc <;>
        exact ⟨by simp [CCCV.n_drop, ratFloor_eq_intFloor],
               by simp [CCCV.n_add, ratFloor_eq_intFloor]⟩)

/-! ### Field-update lemma for add_feature_data -/

/-- What a successful `add_feature_data` call stores: the batch's
sample names appended, and both arrays column-sliced by `used_idxs`
and row-appended (with the base-value column split off the shap array
first when no explicit base value was passed). -/
theorem add_feature_data_fields (h : ShapHandler) (names : List String)
    (X S : Matrix) (bv : Option ℚ) (h' : ShapHandler)
    (hok : add_feature_data h names X S bv = .ok h') :
    h'.used_idxs = h.used_idxs ∧
    h'.used_feature_names = h.used_feature_names ∧
    h'.sample_names = some (h.sample_names.getD [] ++ names) ∧
    h'.used_features = some (h.used_features.getD [] ++
      X.map (selectCols h.used_idxs)) ∧
    h'.used_shaps = some (h.used_shaps.getD [] ++
      (effectiveShaps S bv).map (selectCols h.used_idxs)) := by
  rw [add_feature_data] at hok
  split at hok
  · injection hok with he
    rw [← he]
    exact ⟨rfl, rfl, rfl, rfl, rfl⟩
  · cases hok

/-! ### C7 — slicing down to the model's used features -/

/-- C7: (a) the used feature indices computed by `from_clf` are exactly
the positions in the model feature space whose name has non-zero weight;
(b) every successful `add_feature_data` call stores the feature columns
at `used_idxs` and the Shapley columns at the very same indices. -/
theorem used_columns_sliced_by_model_features :
    (∀ (fn : List String) (w : String → ℚ) (i : Nat),
      i ∈ (from_clf fn w).used_idxs ↔ (i < fn.length ∧ w (fn.getD i "") ≠ 0)) ∧
    (∀ (h : ShapHandler) (names : List String) (X S : Matrix)
      (bv : Option ℚ) (h' : ShapHandler),
      add_feature_data h names X S bv = .ok h' →
      h'.used_features = some (h.used_features.getD [] ++
        X.map (selectCols h.used_idxs)) ∧
      h'.used_shaps = some (h.used_shaps.getD [] ++
        (effectiveShaps S bv).map (selectCols h.used_idxs))) := by
  constructor
  · intro fn w i
    simp [from_clf, List.mem_filter, List.mem_range]
  · intro h names X S bv h' hok
    obtain ⟨_, _, _, h4, h5⟩ := add_feature_data_fields h names X S bv h' hok
    exact ⟨h4, h5⟩

/-- C7, witness: the single batch stored in `handlerB2`. -/
theorem used_columns_sliced_witness :
    (0 ∈ (from_clf ["f0"] (fun _ => 1)).used_idxs ↔
      (0 < (["f0"] : List String).length ∧ (1 : ℚ) ≠ 0)) ∧
    handlerB2.used_features = some (baseHandler.used_features.getD [] ++
      ([[1]] : Matrix).map (selectCols baseHandler.used_idxs)) ∧
    handlerB2.used_shaps = some (baseHandler.used_shaps.getD [] ++
      ([[2]] : Matrix).map (selectCols baseHandler.used_idxs)) :=
  ⟨used_columns_sliced_by_model_features.1 ["f0"] (fun _ => 1) 0,
   used_columns_sliced_by_model_features.2 baseHandler ["a"] [[1]] [[2]]
     (some (1/2)) handlerB2 rfl⟩

/-! ### C9 — stored arrays stay sample-parallel -/

/-- The effective shap matrix has one row per input shap row. -/
theorem effectiveShaps_length (S : Matrix) (bv : Option ℚ) :
    (effectiveShaps S bv).length = S.length := by
  cases bv <;> simp [effectiveShaps]

/-- Row counts after a sequence of successful `add_batch` calls: each
well-formed batch contributes its sample count to all three stores. -/
theorem addMany_counts (bs : List Batch) : ∀ (h st : ShapHandler),
    (∀ b ∈ bs, b.wf) → addMany h bs = .ok st →
    namesCount st = namesCount h + (bs.map (fun b => b.sample_names.length)).sum ∧
    featRows st = featRows h + (bs.map (fun b => b.sample_names.length)).sum ∧
    shapRows st = shapRows h + (bs.map (fun b => b.sample_names.length)).sum := by
  induction bs with
  | nil =>
    intro h st _ hok
    injection hok with he
    rw [← he]
    simp
  | cons b rest ih =>
    intro h st hwf hok
    unfold addMany at hok
    cases hab : add_batch h b with
    | error e =>
      rw [hab] at hok
      cases hok
    | ok h1 =>
      rw [hab] at hok
      obtain ⟨_, _, hsn, hfe, hsh⟩ := add_feature_data_fields h b.sample_names
        b.features b.shaps b.base_value h1 hab
      obtain ⟨hw1, hw2⟩ := hwf b (List.mem_cons_self b rest)
      obtain ⟨i1, i2, i3⟩ := ih h1 st (fun x hx => hwf x (List.mem_cons_of_mem b hx)) hok
      have c1 : namesCount h1 = namesCount h + b.sample_names.length := by
        simp [namesCount, hsn]
      have c2 : featRows h1 = featRows h + b.sample_names.length := by
        simp [featRows, hfe, hw1]
      have c3 : shapRows h1 = shapRows h + b.sample_names.length := by
        simp [shapRows, hsh, effectiveShaps_length, hw2]
      refine ⟨?_, ?_, ?_⟩ <;> simp only [List.map_cons, List.sum_cons] <;> omega

/-- C9: starting from a freshly constructed handler, after any sequence
of successful `add_feature_data` calls with well-formed batches, the
number of stored sample names, stored feature rows and stored shap rows
are all equal to the sum of the batch sizes added so far. -/
theorem stored_arrays_parallel :
    ∀ (fn : List String) (w : String → ℚ) (bs : List Batch) (st : ShapHandler),
      (∀ b ∈ bs, b.wf) →
      addMany (from_clf fn w) bs = .ok st →
      namesCount st = (bs.map (fun b => b.sample_names.length)).sum ∧
      featRows st = (bs.map (fun b => b.sample_names.length)).sum ∧
      shapRows st = (bs.map (fun b => b.sample_names.length)).sum := by
  intro fn w bs st hwf hok
  obtain ⟨c1, c2, c3⟩ := addMany_counts bs (from_clf fn w) st hwf hok
  have h0 : namesCount (from_clf fn w) = 0 := rfl
  have h1 : featRows (from_clf fn w) = 0 := rfl
  have h2 : shapRows (from_clf fn w) = 0 := rfl
  omega

/-- A concrete well-formed batch: one sample, one feature column. -/
def batch1 : Batch := { sample_names := ["a"], features := [[1]],
                        shaps := [[2]], base_value := some 0 }

/-- `freshHandler` after adding `batch1`. -/
def nineState : ShapHandler := getOkD (addMany freshHandler [batch1]) freshHandler

/-- C9, witness: one concrete batch of one sample. -/
theorem stored_arrays_parallel_witness :
    namesCount nineState = ([batch1].map (fun b => b.sample_names.length)).sum ∧
    featRows nineState = ([batch1].map (fun b => b.sample_names.length)).sum ∧
    shapRows nineState = ([batch1].map (fun b => b.sample_names.length)).sum :=
  stored_arrays_parallel ["f0"] (fun _ => 1) [batch1] nineState
    (by
      intro b hb
      fin_cases hb
      exact ⟨rfl, rfl⟩)
    rfl

/-! ### C5 — summary row count with n_max_features = None -/

/-- Invariants of a successful `addMany` run: the model-derived fields
are untouched; every stored shap row keeps width `used_idxs.length`;
once any batch has been added both data stores are set; and the shap
store is non-empty as soon as some added batch had a sample. -/
theorem addMany_data_inv (bs : List Batch) : ∀ (h st : ShapHandler),
    addMany h bs = .ok st →
    st.used_idxs = h.used_idxs ∧
    st.used_feature_names = h.used_feature_names ∧
    ((∀ r ∈ h.used_shaps.getD [], r.length = h.used_idxs.length) →
      ∀ r ∈ st.used_shaps.getD [], r.length = h.used_idxs.length) ∧
    ((bs ≠ [] ∨ (h.used_features.isSome ∧ h.used_shaps.isSome)) →
      (st.used_features.isSome ∧ st.used_shaps.isSome)) ∧
    ((h.used_shaps.getD [] ≠ [] ∨ ∃ b ∈ bs, b.shaps ≠ []) →
      st.used_shaps.getD [] ≠ []) := by
  induction bs with
  | nil =>
    intro h st hok
    injection hok with he
    subst he
    refine ⟨rfl, rfl, fun hr => hr, ?_, ?_⟩
    · rintro (hne | hsome)
      · exact absurd rfl hne
      · exact hsome
    · rintro (hne | ⟨b, hb, _⟩)
      · exact hne
      · cases hb
  | cons b rest ih =>
    intro h st hok
    unfold addMany at hok
    cases hab : add_batch h b with
    | error e =>
      rw [hab] at hok
      cases hok
    | ok h1 =>
      rw [hab] at hok
      obtain ⟨hidx, hnames, _, hfe, hsh⟩ := add_feature_data_fields h
        b.sample_names b.features b.shaps b.base_value h1 hab
      obtain ⟨j1, j2, j3, j4, j5⟩ := ih h1 st hok
      refine ⟨j1.trans hidx, j2.trans hnames, ?_, ?_, ?_⟩
      · intro hr
        have h1rows : ∀ r ∈ h1.used_shaps.getD [],
            r.length = h1.used_idxs.length := by
          intro r hrr
          rw [hsh] at hrr
          simp only [Option.getD_some] at hrr
          rcases List.mem_append.1 hrr with hold | hnew
          · rw [hidx]
            exact hr r hold
          · obtain ⟨r0, _, hr0⟩ := List.mem_map.1 hnew
            rw [← hr0, hidx]
            simp [selectCols]
        intro r hrr
        rw [← hidx]
        exact (fun hh => j3 hh r hrr) (by rw [hidx] at h1rows ⊢; exact h1rows)
      · intro _
        refine j4 (Or.inr ?_)
        rw [hfe, hsh]
        exact ⟨rfl, rfl⟩
      · rintro (hne | ⟨b', hb', hbne⟩)
        · refine j5 (Or.inl ?_)
          rw [hsh]
          simp only [Option.getD_some]
          intro hemp
          exact hne (List.append_eq_nil.1 hemp).1
        · rcases List.mem_cons.1 hb' with hbb | hbrest
          · subst hbb
            refine j5 (Or.inl ?_)
            rw [hsh]
            simp only [Option.getD_some]
            intro hemp
            have hnew := (List.append_eq_nil.1 hemp).2
            have : (effectiveShaps b'.shaps b'.base_value).length = 0 := by
              rw [List.map_eq_nil_iff] at hnew
              rw [hnew]
              rfl
            rw [effectiveShaps_length] at this
            exact hbne (List.length_eq_zero.1 this)
          · exact j5 (Or.inr ⟨b', hbrest, hbne⟩)

/-- `get_shap_summary` with `n_max_features=None` succeeds on a handler
with data stored and returns one row per shap column. -/
theorem get_shap_summary_none_length (st : ShapHandler) (X S : Matrix)
    (hX : st.used_features = some X) (hS : st.used_shaps = some S) :
    ∃ rows, get_shap_summary st none = .ok rows ∧ rows.length = ncols S := by
  unfold get_shap_summary _get_sorted_by_shap_data _get_feature_data
  rw [hX, hS]
  have hlen : (argsortDescBy (shapSortKey S) (ncols S)).length = ncols S := by
    rw [(argsortDescBy_perm (shapSortKey S) (ncols S)).length_eq]
    exact List.length_range (ncols S)
  simp [summaryFromSorted, hlen]

/-- C5: on a handler built from a fitted model, after at least one
batch (containing at least one sample) has been added successfully,
`get_shap_summary` with `n_max_features=None` returns exactly one row
per used feature — as many rows as model features with non-zero
weight. -/
theorem summary_row_count_equals_used_features :
    ∀ (fn : List String) (w : String → ℚ) (bs : List Batch) (st : ShapHandler),
      addMany (from_clf fn w) bs = .ok st →
      (∃ b ∈ bs, b.shaps ≠ []) →
      ∃ rows, get_shap_summary st none = .ok rows ∧
        rows.length = ((List.range fn.length).filter
          (fun i => w (fn.getD i "") ≠ 0)).length := by
  intro fn w bs st hok hne
  obtain ⟨hidx, _, hrows, hdata, hnonempty⟩ := addMany_data_inv bs (from_clf fn w) st hok
  have hne2 := hne
  obtain ⟨b, hb, _⟩ := hne2
  obtain ⟨hfsome, hssome⟩ := hdata (Or.inl (List.ne_nil_of_mem hb))
  obtain ⟨X, hX⟩ := Option.isSome_iff_exists.1 hfsome
  obtain ⟨S, hS⟩ := Option.isSome_iff_exists.1 hssome
  have hSne : S ≠ [] := by
    have := hnonempty (Or.inr hne)
    rw [hS] at this
    simpa using this
  have hwidth : ∀ r ∈ S, r.length = (from_clf fn w).used_idxs.length := by
    have := hrows (by simp [from_clf])
    rw [hS] at this
    simpa using this
  obtain ⟨r0, t0, hcons⟩ := List.exists_cons_of_ne_nil hSne
  have hcols : ncols S = (from_clf fn w).used_idxs.length := by
    rw [hcons]
    exact hwidth r0 (hcons ▸ List.mem_cons_self r0 t0)
  obtain ⟨rows, hr1, hr2⟩ := get_shap_summary_none_length st X S hX hS
  refine ⟨rows, hr1, ?_⟩
  rw [hr2, hcols]
  rfl

/-- C5, witness: the summary on `nineState` (one used feature out of
one model feature with weight 1) has exactly one row. -/
theorem summary_row_count_witness :
    ∃ rows, get_shap_summary nineState none = .ok rows ∧
      rows.length = ((List.range (["f0"] : List String).length).filter
        (fun i => (fun _ => (1 : ℚ)) ((["f0"] : List String).getD i "") ≠ 0)).length :=
  summary_row_count_equals_used_features ["f0"] (fun _ => 1) [batch1] nineState
    rfl ⟨batch1, List.mem_cons_self batch1 [], by simp [batch1]⟩

/-! ### C4 — summary means are (rounded) conditional means -/

/-- The `SummaryRow` used as a `getD` fallback. -/
def defaultRow : SummaryRow :=
  { feature := "", mean_shap_present := none, mean_shap_absent := none,
    n_present := 0, n_absent := 0 }

/-- Column `i` of a column-permuted matrix is column `inds[i]` of the
original matrix. -/
theorem colQ_map_selectCols (M : Matrix) (inds : List Nat) (i : Nat)
    (hi : i < inds.length) :
    colQ (M.map (selectCols inds)) i = colQ M (inds.getD i 0) := by
  unfold colQ
  rw [List.map_map]
  refine List.map_congr_left ?_
  intro r _
  show (selectCols inds r).getD i 0 = r.getD (inds.getD i 0) 0
  unfold selectCols
  exact getD_map_lt (fun k => r.getD k 0) inds i hi 0 0

/-- C4, counterexample: on three stored samples with the feature
present everywhere and shap values 1, 0, 0, the exact conditional mean
is 1/3, but the summary row holds `round(1/3, 5) = 0.33333 ≠ 1/3` — the
reported means are rounded to 5 decimal places, not exact. -/
theorem summary_exact_mean_counterexample :
    (summaryHead thirdHandler).map (fun r => r.mean_shap_present) =
      some (some (33333/100000)) ∧
    thirdHandler.used_features = some [[1], [1], [1]] ∧
    thirdHandler.used_shaps = some [[1], [0], [0]] ∧
    meanOpt (presentShaps [[1], [1], [1]] [[1], [0], [0]] 0) = some (1/3) ∧
    (33333/100000 : ℚ) ≠ 1/3 := by
  refine ⟨?_, ?_, ?_, ?_, by norm_num⟩
  · norm_num [thirdHandler, baseHandler, add_feature_data, baseValueOk,
      effectiveBase, effectiveShaps, getOkD, summaryHead, get_shap_summary, summaryFromSorted,
      _get_sorted_by_shap_data, _get_feature_data, argsortDescBy, rankLE,
      List.insertionSort, List.orderedInsert, shapSortKey, absQ, ncols,
      selectCols, summaryRow, List.range_succ, presentShaps, absentShaps,
      colQ, meanOpt, meanQ, round5, roundHalfEven, ratFloor_eq_intFloor]
  · norm_num [thirdHandler, baseHandler, add_feature_data, baseValueOk,
      effectiveBase, effectiveShaps, getOkD, selectCols]
  · norm_num [thirdHandler, baseHandler, add_feature_data, baseValueOk,
      effectiveBase, effectiveShaps, getOkD, selectCols]
  · norm_num [presentShaps, colQ, meanOpt, meanQ]

/-- A row of the summary table over the column-sorted arrays equals the
summary row of the corresponding original feature column. -/
theorem summaryRow_map_getD (X S : Matrix) (names : List String)
    (inds : List Nat) (nv i : Nat)
    (hn : nv ≤ (inds.map (fun k => names.getD k "")).length)
    (hi : i < nv) :
    ((List.range nv).map (summaryRow (X.map (selectCols inds))
      (S.map (selectCols inds))
      (inds.map (fun k => names.getD k "")))).getD i defaultRow =
    { feature := names.getD (inds.getD i 0) ""
      mean_shap_present := (meanOpt (presentShaps X S (inds.getD i 0))).map round5
      mean_shap_absent := (meanOpt (absentShaps X S (inds.getD i 0))).map round5
      n_present := (presentShaps X S (inds.getD i 0)).length
      n_absent := (absentShaps X S (inds.getD i 0)).length } := by
  have hii : i < inds.length := by
    rw [List.length_map] at hn
    omega
  rw [getD_map_lt _ _ i (by rw [List.length_range]; exact hi) defaultRow 0]
  have hgr : (List.range nv).getD i 0 = i := by
    rw [List.getD_eq_getElem?_getD, List.getElem?_range hi]
    rfl
  rw [hgr]
  unfold summaryRow
  have hpx : presentShaps (X.map (selectCols inds)) (S.map (selectCols inds)) i =
      presentShaps X S (inds.getD i 0) := by
    unfold presentShaps
    rw [colQ_map_selectCols X _ i hii, colQ_map_selectCols S _ i hii]
  have hax : absentShaps (X.map (selectCols inds)) (S.map (selectCols inds)) i =
      absentShaps X S (inds.getD i 0) := by
    unfold absentShaps
    rw [colQ_map_selectCols X _ i hii, colQ_map_selectCols S _ i hii]
  rw [hpx, hax, getD_map_lt (fun k => names.getD k "") inds i hii "" 0]

/-- C4, amended: every row of `get_shap_summary` reports, for some
original feature column `j`, that feature's name, the conditional means
of its stored Shapley values over samples with positive (resp. zero)
feature value rounded to 5 decimal places (`np.round(·, 5)`; NaN for an
empty selection, modelled as `none`), and the exact counts of both
sample groups. -/
theorem summary_means_are_rounded_exact_means :
    ∀ (st : ShapHandler) (X S : Matrix) (nopt : Option Nat)
      (rows : List SummaryRow) (i : Nat),
      st.used_features = some X → st.used_shaps = some S →
      get_shap_summary st nopt = .ok rows →
      i < rows.length →
      ∃ j, rows.getD i defaultRow =
        { feature := st.used_feature_names.getD j ""
          mean_shap_present := (meanOpt (presentShaps X S j)).map round5
          mean_shap_absent := (meanOpt (absentShaps X S j)).map round5
          n_present := (presentShaps X S j).length
          n_absent := (absentShaps X S j).length } := by
  intro st X S nopt rows i hX hS hok hi
  have hsorted : _get_sorted_by_shap_data st none = .ok
      (X.map (selectCols (argsortDescBy (shapSortKey S) (ncols S))),
       S.map (selectCols (argsortDescBy (shapSortKey S) (ncols S))),
       (argsortDescBy (shapSortKey S) (ncols S)).map
         (fun k => st.used_feature_names.getD k "")) := by
    unfold _get_sorted_by_shap_data _get_feature_data
    rw [hX, hS]
  unfold get_shap_summary at hok
  simp only [hsorted] at hok
  unfold summaryFromSorted at hok
  split at hok
  case isTrue hn =>
    injection hok with he
    subst he
    rw [List.length_map, List.length_range] at hi
    exact ⟨(argsortDescBy (shapSortKey S) (ncols S)).getD i 0,
      summaryRow_map_getD X S st.used_feature_names
        (argsortDescBy (shapSortKey S) (ncols S)) _ i hn hi⟩
  case isFalse => cases hok

/-- The summary table of `thirdHandler`, written out. -/
def thirdRows : List SummaryRow :=
  [{ feature := "f0", mean_shap_present := some (33333/100000),
     mean_shap_absent := none, n_present := 3, n_absent := 0 }]

/-- C4, witness: the single summary row of `thirdHandler` against the
original feature column. -/
theorem summary_means_witness :
    ∃ j, thirdRows.getD 0 defaultRow =
      { feature := thirdHandler.used_feature_names.getD j ""
        mean_shap_present :=
          (meanOpt (presentShaps [[1], [1], [1]] [[1], [0], [0]] j)).map round5
        mean_shap_absent :=
          (meanOpt (absentShaps [[1], [1], [1]] [[1], [0], [0]] j)).map round5
        n_present := (presentShaps [[1], [1], [1]] [[1], [0], [0]] j).length
        n_absent := (absentShaps [[1], [1], [1]] [[1], [0], [0]] j).length } :=
  summary_means_are_rounded_exact_means thirdHandler [[1], [1], [1]]
    [[1], [0], [0]] none thirdRows 0
    (by norm_num [thirdHandler, baseHandler, add_feature_data, baseValueOk,
      effectiveBase, effectiveShaps, getOkD, selectCols])
    (by norm_num [thirdHandler, baseHandler, add_feature_data, baseValueOk,
      effectiveBase, effectiveShaps, getOkD, selectCols])
    (by norm_num [thirdHandler, baseHandler, add_feature_data, baseValueOk,
      effectiveBase, effectiveShaps, getOkD, get_shap_summary, summaryFromSorted,
      _get_sorted_by_shap_data, _get_feature_data, argsortDescBy, rankLE,
      List.insertionSort, List.orderedInsert, shapSortKey, absQ, ncols,
      selectCols, summaryRow, List.range_succ, presentShaps, absentShaps,
      colQ, meanOpt, meanQ, round5, roundHalfEven, ratFloor_eq_intFloor,
      thirdRows])
    (by norm_num [thirdRows])

end PICA2
